import Mathlib

/-
Shallow embedding of the GitHub integration layer of this repository
(crates/utils/src/github/mod.rs and
crates/projects_api/src/routes/get_project_config.rs).

HTTP transport is modelled by passing the already-received response as an
explicit value (status code, body text, decode outcomes); the pure
decision logic of each operation is translated directly from the source.
-/

/-- Model of serde_json::Value: a JSON value tree (numbers simplified to
integers; no claim inspects numeric payloads). -/
inductive Json : Type where
  | null : Json
  | bool (b : Bool) : Json
  | num (n : Int) : Json
  | str (s : String) : Json
  | arr (elems : List Json) : Json
  | obj (fields : List (String × Json)) : Json

/-- Modelled from the spec: the Normalized Error body (GitHubErrorBody in
crates/utils/src/error.rs, which is outside the provided source slice; its
three fields are fully determined by every construction site in
github/mod.rs and by the spec's Data Model section: optional documentation
reference, optional list of structured sub-errors, mandatory message). -/
structure GitHubErrorBody : Type where
  documentation_url : Option String
  errors : Option (List Json)
  message : String


/-- Model of sqlx::Error as used by the configuration-lookup handler: the
row-not-found case is matched explicitly, every other storage failure is
carried opaquely (represented by its display text). -/
inductive Sqlx.Error : Type where
  | RowNotFound : Sqlx.Error
  | Other (msg : String) : Sqlx.Error


/-- Modelled from the spec: the AppError enum (crates/utils/src/error.rs is
outside the provided source slice). The variants are exactly the ones the
two provided source files construct: GitHubError (upstream-reported
failure), ParseConfigError (content decode failure), SerdeJsonError
(configuration deserialization failure), SqlxError (generic storage
failure), NotFound, and ReqwestError for transport failures propagated by
the question-mark operator. -/
inductive AppError : Type where
  | GitHubError (body : GitHubErrorBody) : AppError
  | ParseConfigError (msg : String) : AppError
  | SerdeJsonError (msg : String) : AppError
  | SqlxError (e : Sqlx.Error) : AppError
  | NotFound : AppError
  | ReqwestError (msg : String) : AppError


/-- Outcome of running a Rust function that may panic: either a normal
return value or a panic with its message. -/
inductive RunResult (α : Type) : Type where
  | panicked (msg : String) : RunResult α
  | ret (a : α) : RunResult α


/-- Model of reqwest StatusCode::is_success: 2xx statuses. -/
def statusIsSuccess (status : Nat) : Bool :=
  decide (200 ≤ status ∧ status < 300)

/-- Model of http StatusCode::canonical_reason: the standard reason phrase
for a status code, when one exists. -/
def canonicalReason : Nat → Option String
  | 100 => some "Continue"
  | 101 => some "Switching Protocols"
  | 102 => some "Processing"
  | 200 => some "OK"
  | 201 => some "Created"
  | 202 => some "Accepted"
  | 203 => some "Non-Authoritative Information"
  | 204 => some "No Content"
  | 205 => some "Reset Content"
  | 206 => some "Partial Content"
  | 207 => some "Multi-Status"
  | 208 => some "Already Reported"
  | 226 => some "IM Used"
  | 300 => some "Multiple Choices"
  | 301 => some "Moved Permanently"
  | 302 => some "Found"
  | 303 => some "See Other"
  | 304 => some "Not Modified"
  | 305 => some "Use Proxy"
  | 307 => some "Temporary Redirect"
  | 308 => some "Permanent Redirect"
  | 400 => some "Bad Request"
  | 401 => some "Unauthorized"
  | 402 => some "Payment Required"
  | 403 => some "Forbidden"
  | 404 => some "Not Found"
  | 405 => some "Method Not Allowed"
  | 406 => some "Not Acceptable"
  | 407 => some "Proxy Authentication Required"
  | 408 => some "Request Timeout"
  | 409 => some "Conflict"
  | 410 => some "Gone"
  | 411 => some "Length Required"
  | 412 => some "Precondition Failed"
  | 413 => some "Payload Too Large"
  | 414 => some "URI Too Long"
  | 415 => some "Unsupported Media Type"
  | 416 => some "Range Not Satisfiable"
  | 417 => some "Expectation Failed"
  | 418 => some "I'm a teapot"
  | 421 => some "Misdirected Request"
  | 422 => some "Unprocessable Entity"
  | 423 => some "Locked"
  | 424 => some "Failed Dependency"
  | 426 => some "Upgrade Required"
  | 428 => some "Precondition Required"
  | 429 => some "Too Many Requests"
  | 431 => some "Request Header Fields Too Large"
  | 451 => some "Unavailable For Legal Reasons"
  | 500 => some "Internal Server Error"
  | 501 => some "Not Implemented"
  | 502 => some "Bad Gateway"
  | 503 => some "Service Unavailable"
  | 504 => some "Gateway Timeout"
  | 505 => some "HTTP Version Not Supported"
  | 506 => some "Variant Also Negotiates"
  | 507 => some "Insufficient Storage"
  | 508 => some "Loop Detected"
  | 510 => some "Not Extended"
  | 511 => some "Network Authentication Required"
  | _ => none

/-- Model of the Display instance of http StatusCode: the numeric code
followed by its canonical reason phrase. -/
def statusDisplay (status : Nat) : String :=
  toString status ++ " " ++ ((canonicalReason status).getD "<unknown status code>")

/-- A received REST response, with the outcomes of the two ways the source
consumes its body: response.text() (None models a body read failure) and
response.json deserialization into the expected type. -/
structure RestHttpResponse (α : Type) : Type where
  status : Nat
  text : Option String
  json : Option α

/-- Model of GitHubClient::get_user_events from the point where the
response has been received. The structured parse of the error body
(serde_json::from_str into GitHubErrorBody) is an external library call,
passed in as parse_error_body. -/
def get_user_events {Event : Type} (parse_error_body : String → Option GitHubErrorBody)
    (response : RestHttpResponse (List Event)) : Except AppError (List Event) :=
  if statusIsSuccess response.status then
    match response.json with
    | some events => Except.ok events
    | none => Except.error (AppError.ReqwestError "error decoding response body")
  else
    let error_body := response.text.getD "Unknown error"
    let github_error :=
      match parse_error_body error_body with
      | some parsed_error => parsed_error
      | none =>
        { documentation_url := none
          errors := none
          message := error_body : GitHubErrorBody }
    Except.error (AppError.GitHubError
      { documentation_url := github_error.documentation_url
        errors := github_error.errors
        message := github_error.message })

/-- Model of GitHubClient::get_languages from the point where the response
has been received (languages as an association list standing for the
HashMap). -/
def get_languages (response : RestHttpResponse (List (String × Int))) :
    Except AppError (List (String × Int)) :=
  if !statusIsSuccess response.status then
    let error_body := response.text.getD "Unknown error"
    Except.error (AppError.GitHubError
      { documentation_url := none
        errors := none
        message := "GitHub API error: status = " ++ statusDisplay response.status
          ++ ", message = " ++ error_body })
  else
    match response.json with
    | some languages => Except.ok languages
    | none => Except.error (AppError.ReqwestError "error decoding response body")

/-- Model of the graphql_client Response envelope, parametrized by the data
payload type and the upstream error entry type. -/
structure GraphQLResponse (D ε : Type) : Type where
  data : Option D
  errors : Option (List ε)
  extensions : Option Json

/-- Model of profile_query::ResponseData: the viewer field. -/
structure ProfileData (PV : Type) : Type where
  viewer : PV

/-- Model of repository_query::ResponseData: the repository field, absent
when the named repository does not exist. -/
structure RepositoryData (R : Type) : Type where
  repository : Option R

/-- A received GraphQL HTTP response: its status and the outcome of
deserializing its body into the envelope (None models a decode failure
propagated by the question-mark operator). -/
structure GraphQLHttpResponse (D ε : Type) : Type where
  status : Nat
  envelope : Option (GraphQLResponse D ε)

/-- Model of GitHubClient::get_user_profile from the point where the
response has been received. jsonOf models serde_json::json! applied to one
upstream GraphQL error entry. -/
def get_user_profile {PV ε : Type} (jsonOf : ε → Json)
    (response : GraphQLHttpResponse (ProfileData PV) ε) : Except AppError PV :=
  if !statusIsSuccess response.status then
    Except.error (AppError.GitHubError
      { documentation_url := none
        errors := none
        message := "Failed to fetch user profile" })
  else
    match response.envelope with
    | none => Except.error (AppError.ReqwestError "error decoding response body")
    | some query_response =>
      match query_response.errors with
      | some errors =>
        Except.error (AppError.GitHubError
          { documentation_url := none
            errors := some (errors.map jsonOf)
            message := "Failed to fetch user profile" })
      | none =>
        match query_response.data with
        | some profile => Except.ok profile.viewer
        | none =>
          Except.error (AppError.GitHubError
            { documentation_url := none
              errors := none
              message := "Failed to fetch user profile" })

/-- Model of GitHubClient::get_repository from the point where the response
has been received. Note the errors branch reuses the profile-lookup message
text, exactly as the source does. -/
def get_repository {R ε : Type} (jsonOf : ε → Json)
    (response : GraphQLHttpResponse (RepositoryData R) ε) : Except AppError R :=
  if !statusIsSuccess response.status then
    Except.error (AppError.GitHubError
      { documentation_url := none
        errors := none
        message := "Failed to fetch repository" })
  else
    match response.envelope with
    | none => Except.error (AppError.ReqwestError "error decoding response body")
    | some query_response =>
      match query_response.errors with
      | some errors =>
        Except.error (AppError.GitHubError
          { documentation_url := none
            errors := some (errors.map jsonOf)
            message := "Failed to fetch user profile" })
      | none =>
        match query_response.data with
        | some data =>
          match data.repository with
          | some repository => Except.ok repository
          | none =>
            Except.error (AppError.GitHubError
              { documentation_url := none
                errors := none
                message := "Failed to fetch repository" })
        | none =>
          Except.error (AppError.GitHubError
            { documentation_url := none
              errors := none
              message := "Failed to fetch repository" })

/-- Modelled from the spec: ApiErrorResponse (crates/utils/src/error.rs is
outside the provided source slice). Its From conversion from AppError is
the boundary contract the route handler relies on; modelled as a direct
wrapper around the AppError it was built from. -/
structure ApiErrorResponse : Type where
  err : AppError


/-- Model of the get_project_config route handler from the point where the
database row fetch has completed. fetch_result is the outcome of the
query_scalar fetch_one call (the stored JSON config column); from_value
models serde_json::from_value into MosaicConfig (the Config type itself is
outside the provided source slice and is abstract here). -/
def get_project_config.handler {Config : Type} (fetch_result : Except Sqlx.Error Json)
    (from_value : Json → Except String Config) : Except ApiErrorResponse Config :=
  match fetch_result with
  | Except.ok raw_config =>
    match from_value raw_config with
    | Except.ok config => Except.ok config
    | Except.error err => Except.error ⟨AppError.SerdeJsonError err⟩
  | Except.error err =>
    match err with
    | Sqlx.Error.RowNotFound => Except.error ⟨AppError.NotFound⟩
    | Sqlx.Error.Other m => Except.error ⟨AppError.SqlxError (Sqlx.Error.Other m)⟩

/-- Model of http HeaderValue byte validity: visible characters, space,
obs-text, and horizontal tab; DEL and other control bytes are invalid. -/
def isValidHeaderByte (b : Nat) : Bool :=
  decide ((32 ≤ b ∧ b ≠ 127) ∨ b = 9)

/-- Standard UTF-8 encoding of one scalar value (model of the byte encoding
underlying str::as_bytes). -/
def utf8EncodeChar (c : Char) : List Nat :=
  if c.toNat < 0x80 then [c.toNat]
  else if c.toNat < 0x800 then [0xC0 + c.toNat / 64, 0x80 + c.toNat % 64]
  else if c.toNat < 0x10000 then
    [0xE0 + c.toNat / 4096, 0x80 + c.toNat / 64 % 64, 0x80 + c.toNat % 64]
  else
    [0xF0 + c.toNat / 262144, 0x80 + c.toNat / 4096 % 64, 0x80 + c.toNat / 64 % 64,
      0x80 + c.toNat % 64]

/-- UTF-8 byte sequence of a character list (model of str::as_bytes). -/
def utf8Encode : List Char → List Nat
  | [] => []
  | c :: cs => utf8EncodeChar c ++ utf8Encode cs

/-- Model of http HeaderValue::from_str validity for a whole string. -/
def isValidHeaderValue (s : String) : Bool :=
  (utf8Encode s.data).all isValidHeaderByte

/-- The authorization header value the client builds from its token. -/
def authHeaderStr (token : String) : String :=
  "token " ++ token

/-- Model of the constructed reqwest client: its immutable default headers,
applied to every subsequent call. -/
structure GitHubClient : Type where
  auth : String
  userAgent : String


/-- Model of GitHubClient::new. HeaderValue::from_str(...).unwrap() panics
when the header value is invalid; the client builder itself is modelled as
always succeeding (its failure modes do not depend on the token). -/
def GitHubClient.new (token : String) : RunResult (Except AppError GitHubClient) :=
  if isValidHeaderValue (authHeaderStr token) then
    RunResult.ret (Except.ok { auth := authHeaderStr token, userAgent := "mosaic" })
  else
    RunResult.panicked "called `Result::unwrap()` on an `Err` value"

/-- Sextet value to base64 standard-alphabet ASCII byte. -/
def b64EncChar (n : Nat) : Nat :=
  if n < 26 then 65 + n
  else if n < 52 then 97 + (n - 26)
  else if n < 62 then 48 + (n - 52)
  else if n = 62 then 43
  else 47

/-- Model of base64 BASE64_STANDARD encoding (standard alphabet, padded),
producing the ASCII bytes of the encoding. -/
def base64Encode : List Nat → List Nat
  | [] => []
  | [a] => [b64EncChar (a / 4), b64EncChar (a % 4 * 16), 61, 61]
  | [a, b] => [b64EncChar (a / 4), b64EncChar (a % 4 * 16 + b / 16), b64EncChar (b % 16 * 4), 61]
  | a :: b :: c :: rest =>
    b64EncChar (a / 4) :: b64EncChar (a % 4 * 16 + b / 16) :: b64EncChar (b % 16 * 4 + c / 64)
      :: b64EncChar (c % 64) :: base64Encode rest

/-- Base64 standard-alphabet ASCII byte back to its sextet value. -/
def b64DecChar (ch : Nat) : Option Nat :=
  if 65 ≤ ch ∧ ch ≤ 90 then some (ch - 65)
  else if 97 ≤ ch ∧ ch ≤ 122 then some (ch - 71)
  else if 48 ≤ ch ∧ ch ≤ 57 then some (ch + 4)
  else if ch = 43 then some 62
  else if ch = 47 then some 63
  else none

/-- Model of base64 BASE64_STANDARD decoding: canonical padding required,
padding only in the final quad, nonzero trailing bits rejected, input
length must be a multiple of four. -/
def base64Decode : List Nat → Option (List Nat)
  | [] => some []
  | c1 :: c2 :: c3 :: c4 :: rest =>
    match b64DecChar c1, b64DecChar c2 with
    | some s1, some s2 =>
      if c3 = 61 then
        if c4 = 61 ∧ rest = [] ∧ s2 % 16 = 0 then
          some [s1 * 4 + s2 / 16]
        else none
      else
        match b64DecChar c3 with
        | some s3 =>
          if c4 = 61 then
            if rest = [] ∧ s3 % 4 = 0 then
              some [s1 * 4 + s2 / 16, s2 % 16 * 16 + s3 / 4]
            else none
          else
            match b64DecChar c4, base64Decode rest with
            | some s4, some tail =>
              some ((s1 * 4 + s2 / 16) :: (s2 % 16 * 16 + s3 / 4) :: (s3 % 4 * 64 + s4) :: tail)
            | _, _ => none
        | none => none
    | _, _ => none
  | _ => none

/-- Validity range for the second byte of a three-byte UTF-8 sequence,
depending on the first byte (overlong and surrogate guards). -/
def utf8Cont3 (b1 b2 : Nat) : Bool :=
  if b1 = 0xE0 then decide (0xA0 ≤ b2 ∧ b2 < 0xC0)
  else if b1 = 0xED then decide (0x80 ≤ b2 ∧ b2 < 0xA0)
  else decide (0x80 ≤ b2 ∧ b2 < 0xC0)

/-- Validity range for the second byte of a four-byte UTF-8 sequence,
depending on the first byte (overlong and upper-bound guards). -/
def utf8Cont4 (b1 b2 : Nat) : Bool :=
  if b1 = 0xF0 then decide (0x90 ≤ b2 ∧ b2 < 0xC0)
  else if b1 = 0xF4 then decide (0x80 ≤ b2 ∧ b2 < 0x90)
  else decide (0x80 ≤ b2 ∧ b2 < 0xC0)

/-- Model of String::from_utf8_lossy: decode UTF-8, emitting U+FFFD for
each maximal invalid subpart, a single U+FFFD for an incomplete final
sequence. -/
def utf8LossyDecode : List Nat → List Char
  | [] => []
  | b1 :: rest =>
    if b1 < 0x80 then Char.ofNat b1 :: utf8LossyDecode rest
    else if b1 < 0xC2 then Char.ofNat 0xFFFD :: utf8LossyDecode rest
    else if b1 < 0xE0 then
      match rest with
      | [] => [Char.ofNat 0xFFFD]
      | b2 :: rest2 =>
        if 0x80 ≤ b2 ∧ b2 < 0xC0 then
          Char.ofNat ((b1 - 0xC0) * 64 + (b2 - 0x80)) :: utf8LossyDecode rest2
        else Char.ofNat 0xFFFD :: utf8LossyDecode (b2 :: rest2)
    else if b1 < 0xF0 then
      match rest with
      | [] => [Char.ofNat 0xFFFD]
      | b2 :: rest2 =>
        if utf8Cont3 b1 b2 then
          match rest2 with
          | [] => [Char.ofNat 0xFFFD]
          | b3 :: rest3 =>
            if 0x80 ≤ b3 ∧ b3 < 0xC0 then
              Char.ofNat ((b1 - 0xE0) * 4096 + (b2 - 0x80) * 64 + (b3 - 0x80))
                :: utf8LossyDecode rest3
            else Char.ofNat 0xFFFD :: utf8LossyDecode (b3 :: rest3)
        else Char.ofNat 0xFFFD :: utf8LossyDecode (b2 :: rest2)
    else if b1 < 0xF5 then
      match rest with
      | [] => [Char.ofNat 0xFFFD]
      | b2 :: rest2 =>
        if utf8Cont4 b1 b2 then
          match rest2 with
          | [] => [Char.ofNat 0xFFFD]
          | b3 :: rest3 =>
            if 0x80 ≤ b3 ∧ b3 < 0xC0 then
              match rest3 with
              | [] => [Char.ofNat 0xFFFD]
              | b4 :: rest4 =>
                if 0x80 ≤ b4 ∧ b4 < 0xC0 then
                  Char.ofNat ((b1 - 0xF0) * 262144 + (b2 - 0x80) * 4096
                      + (b3 - 0x80) * 64 + (b4 - 0x80))
                    :: utf8LossyDecode rest4
                else Char.ofNat 0xFFFD :: utf8LossyDecode (b4 :: rest4)
            else Char.ofNat 0xFFFD :: utf8LossyDecode (b3 :: rest3)
        else Char.ofNat 0xFFFD :: utf8LossyDecode (b2 :: rest2)
    else Char.ofNat 0xFFFD :: utf8LossyDecode rest
termination_by l => l.length
decreasing_by all_goals ((try simp_wf) <;> omega)

/-- The whitespace bytes stripped by decoded_content, in source order:
space, newline, tab, carriage return, vertical tab, form feed. -/
def wsBytes : List Nat := [32, 10, 9, 13, 11, 12]

/-- Model of the GitHubContentObject struct; the optional raw content is
carried as the string the JSON decode produced. -/
structure GitHubContentObject : Type where
  name : String
  path : String
  sha : String
  size : Int
  url : String
  html_url : String
  git_url : String
  download_url : String
  type_ : String
  content : Option String
  encoding : String
  links : List (String × String)

/-- Model of GitHubContentObject::decoded_content: on present content,
retain the non-whitespace bytes, base64-decode them (the expect call
panics on failure), and interpret the bytes as UTF-8 lossily. -/
def GitHubContentObject.decoded_content (o : GitHubContentObject) :
    RunResult (Option String) :=
  match o.content with
  | none => RunResult.ret none
  | some c =>
    let content := (utf8Encode c.data).filter (fun b => !wsBytes.contains b)
    match base64Decode content with
    | some bytes => RunResult.ret (some (String.mk (utf8LossyDecode bytes)))
    | none => RunResult.panicked "could not decode github content"

/-- r is l with arbitrary whitespace bytes interleaved at arbitrary
positions. -/
inductive Interleaved : List Nat → List Nat → Prop where
  | nil : Interleaved [] []
  | keep (b : Nat) {l r : List Nat} : Interleaved l r → Interleaved (b :: l) (b :: r)
  | ws (b : Nat) {l r : List Nat} : b ∈ wsBytes → Interleaved l r → Interleaved l (b :: r)

/-
Theorems. Claim theorems are named after the operation and property they
settle; helper lemmas for the content-decoder round trip come first where
needed.
-/

/-- C2: for every non-2xx REST user-events response whose body text is not
valid structured-error JSON, the lookup returns a Normalized Error whose
message is the raw body text verbatim and whose documentation-URL and
structured-errors fields are both absent; the fallback construction is a
total function and never itself fails. -/
theorem get_user_events_fallback_error {Event : Type}
    (parse_error_body : String → Option GitHubErrorBody)
    (response : RestHttpResponse (List Event)) (body : String)
    (hstatus : statusIsSuccess response.status = false)
    (htext : response.text = some body)
    (hparse : parse_error_body body = none) :
    get_user_events parse_error_body response =
      Except.error (AppError.GitHubError
        { documentation_url := none, errors := none, message := body }) := by
  simp [get_user_events, hstatus, htext, hparse]

/-- Witness for C2 at a concrete 404 response with unparseable body. -/
theorem get_user_events_fallback_error_witness :
    get_user_events (fun _ => none)
        (⟨404, some "oops", none⟩ : RestHttpResponse (List Unit)) =
      Except.error (AppError.GitHubError
        { documentation_url := none, errors := none, message := "oops" }) :=
  get_user_events_fallback_error (fun _ => none) ⟨404, some "oops", none⟩ "oops"
    (by decide) rfl rfl

/-- C7: for every non-2xx language-lookup response, the Normalized Error's
message contains the status code and the raw body text verbatim, and the
documentation-URL and structured-errors fields are absent. -/
theorem get_languages_error_message
    (response : RestHttpResponse (List (String × Int))) (body : String)
    (hstatus : statusIsSuccess response.status = false)
    (htext : response.text = some body) :
    get_languages response =
      Except.error (AppError.GitHubError
        { documentation_url := none, errors := none
          message := "GitHub API error: status = " ++ statusDisplay response.status
            ++ ", message = " ++ body })
    ∧ (∃ p q, "GitHub API error: status = " ++ statusDisplay response.status
        ++ ", message = " ++ body = p ++ toString response.status ++ q)
    ∧ (∃ p q, "GitHub API error: status = " ++ statusDisplay response.status
        ++ ", message = " ++ body = p ++ body ++ q) := by
  refine ⟨by simp [get_languages, hstatus, htext], ?_, ?_⟩
  · refine ⟨"GitHub API error: status = ",
      " " ++ ((canonicalReason response.status).getD "<unknown status code>")
        ++ ", message = " ++ body, ?_⟩
    simp [statusDisplay, String.append_assoc]
  · refine ⟨"GitHub API error: status = " ++ statusDisplay response.status
      ++ ", message = ", "", ?_⟩
    simp [String.append_assoc]

/-- Witness for C7: a 500 with plain-text body yields a message carrying
both the status code and the body verbatim. -/
theorem get_languages_error_message_witness :
    get_languages ⟨500, some "internal error", none⟩ =
      Except.error (AppError.GitHubError
        { documentation_url := none, errors := none
          message := "GitHub API error: status = "
            ++ statusDisplay 500 ++ ", message = " ++ "internal error" }) :=
  (get_languages_error_message ⟨500, some "internal error", none⟩ "internal error"
    (by decide) rfl).1

/-- C3: for every GraphQL response (profile or repository lookup) with HTTP
success whose envelope carries a non-empty errors list, the operation
returns a Normalized Error whose structured-errors field is present, has
the same length as the upstream list, and matches it element for element
under the JSON serialization of each entry. -/
theorem graphql_errors_elementwise {PV R ε : Type} (jsonOf : ε → Json)
    (rp : GraphQLHttpResponse (ProfileData PV) ε)
    (rr : GraphQLHttpResponse (RepositoryData R) ε)
    (qp : GraphQLResponse (ProfileData PV) ε)
    (qr : GraphQLResponse (RepositoryData R) ε)
    (errsP errsR : List ε)
    (hsP : statusIsSuccess rp.status = true) (hEnvP : rp.envelope = some qp)
    (hErrP : qp.errors = some errsP) (hneP : errsP ≠ [])
    (hsR : statusIsSuccess rr.status = true) (hEnvR : rr.envelope = some qr)
    (hErrR : qr.errors = some errsR) (hneR : errsR ≠ []) :
    (get_user_profile jsonOf rp =
        Except.error (AppError.GitHubError
          { documentation_url := none, errors := some (errsP.map jsonOf)
            message := "Failed to fetch user profile" })
      ∧ (errsP.map jsonOf).length = errsP.length
      ∧ ∀ i : Nat, (errsP.map jsonOf).get? i = (errsP.get? i).map jsonOf)
    ∧ (get_repository jsonOf rr =
        Except.error (AppError.GitHubError
          { documentation_url := none, errors := some (errsR.map jsonOf)
            message := "Failed to fetch user profile" })
      ∧ (errsR.map jsonOf).length = errsR.length
      ∧ ∀ i : Nat, (errsR.map jsonOf).get? i = (errsR.get? i).map jsonOf) := by
  refine ⟨⟨?_, List.length_map _ _, fun i => ?_⟩, ⟨?_, List.length_map _ _, fun i => ?_⟩⟩
  · simp [get_user_profile, hsP, hEnvP, hErrP]
  · simp [List.get?_map]
  · simp [get_repository, hsR, hEnvR, hErrR]
  · simp [List.get?_map]

/-- Witness for C3 at concrete one-element error lists for both lookups. -/
theorem graphql_errors_elementwise_witness :
    get_user_profile Json.str
        ⟨200, some ⟨(none : Option (ProfileData Unit)), some ["boom"], none⟩⟩ =
      Except.error (AppError.GitHubError
        { documentation_url := none, errors := some [Json.str "boom"]
          message := "Failed to fetch user profile" })
    ∧ get_repository Json.str
        ⟨200, some ⟨(none : Option (RepositoryData Unit)), some ["bang"], none⟩⟩ =
      Except.error (AppError.GitHubError
        { documentation_url := none, errors := some [Json.str "bang"]
          message := "Failed to fetch user profile" }) := by
  have h := @graphql_errors_elementwise Unit Unit String Json.str
    ⟨200, some ⟨none, some ["boom"], none⟩⟩ ⟨200, some ⟨none, some ["bang"], none⟩⟩
    ⟨none, some ["boom"], none⟩ ⟨none, some ["bang"], none⟩ ["boom"] ["bang"]
    rfl rfl rfl (List.cons_ne_nil _ _) rfl rfl rfl (List.cons_ne_nil _ _)
  exact ⟨h.1.1, h.2.1⟩

/-- C4: for every GraphQL repository lookup whose envelope carries a data
payload with a null repository field and no errors list, the lookup
returns the fixed repository-lookup Normalized Error (the branch the spec
labels not-found-flavored) and returns normally rather than crashing. -/
theorem get_repository_data_without_repository {R ε : Type} (jsonOf : ε → Json)
    (response : GraphQLHttpResponse (RepositoryData R) ε)
    (qr : GraphQLResponse (RepositoryData R) ε) (d : RepositoryData R)
    (hstatus : statusIsSuccess response.status = true)
    (henv : response.envelope = some qr)
    (herrs : qr.errors = none)
    (hdata : qr.data = some d)
    (hrepo : d.repository = none) :
    get_repository jsonOf response =
      Except.error (AppError.GitHubError
        { documentation_url := none, errors := none
          message := "Failed to fetch repository" }) := by
  simp [get_repository, hstatus, henv, herrs, hdata, hrepo]

/-- Witness for C4 at a concrete envelope with data.repository null. -/
theorem get_repository_data_without_repository_witness :
    get_repository (R := Unit) (ε := Unit) (fun _ => Json.null)
        ⟨200, some ⟨some ⟨none⟩, none, none⟩⟩ =
      Except.error (AppError.GitHubError
        { documentation_url := none, errors := none
          message := "Failed to fetch repository" }) :=
  get_repository_data_without_repository (fun _ => Json.null)
    ⟨200, some ⟨some ⟨none⟩, none, none⟩⟩ ⟨some ⟨none⟩, none, none⟩ ⟨none⟩
    rfl rfl rfl rfl rfl

/-- C8: for every GraphQL repository lookup whose envelope carries an
errors list, the returned Normalized Error carries the profile-lookup
message text, not a repository-specific one. -/
theorem get_repository_errors_uses_profile_message {R ε : Type} (jsonOf : ε → Json)
    (response : GraphQLHttpResponse (RepositoryData R) ε)
    (qr : GraphQLResponse (RepositoryData R) ε) (errs : List ε)
    (hstatus : statusIsSuccess response.status = true)
    (henv : response.envelope = some qr)
    (herrs : qr.errors = some errs) :
    get_repository jsonOf response =
      Except.error (AppError.GitHubError
        { documentation_url := none, errors := some (errs.map jsonOf)
          message := "Failed to fetch user profile" }) := by
  simp [get_repository, hstatus, henv, herrs]

/-- Witness for C8 at a concrete repository-lookup envelope with errors. -/
theorem get_repository_errors_uses_profile_message_witness :
    get_repository (R := Unit) Json.str ⟨200, some ⟨none, some ["whoops"], none⟩⟩ =
      Except.error (AppError.GitHubError
        { documentation_url := none, errors := some [Json.str "whoops"]
          message := "Failed to fetch user profile" }) :=
  get_repository_errors_uses_profile_message Json.str
    ⟨200, some ⟨none, some ["whoops"], none⟩⟩ ⟨none, some ["whoops"], none⟩ ["whoops"]
    rfl rfl rfl

/-- C10: for every GraphQL lookup (profile or repository) whose envelope
has the errors field present, even as an empty list, the operation returns
a Normalized Error whose structured-errors field has the same (possibly
zero) length as the upstream list, discarding any data payload also
present: the errors field takes precedence and an empty errors list does
not yield success. -/
theorem graphql_errors_precedence {PV R ε : Type} (jsonOf : ε → Json)
    (rp : GraphQLHttpResponse (ProfileData PV) ε)
    (rr : GraphQLHttpResponse (RepositoryData R) ε)
    (qp : GraphQLResponse (ProfileData PV) ε)
    (qr : GraphQLResponse (RepositoryData R) ε)
    (errsP errsR : List ε)
    (hsP : statusIsSuccess rp.status = true) (hEnvP : rp.envelope = some qp)
    (hErrP : qp.errors = some errsP)
    (hsR : statusIsSuccess rr.status = true) (hEnvR : rr.envelope = some qr)
    (hErrR : qr.errors = some errsR) :
    (get_user_profile jsonOf rp =
        Except.error (AppError.GitHubError
          { documentation_url := none, errors := some (errsP.map jsonOf)
            message := "Failed to fetch user profile" })
      ∧ (errsP.map jsonOf).length = errsP.length)
    ∧ (get_repository jsonOf rr =
        Except.error (AppError.GitHubError
          { documentation_url := none, errors := some (errsR.map jsonOf)
            message := "Failed to fetch user profile" })
      ∧ (errsR.map jsonOf).length = errsR.length) := by
  refine ⟨⟨?_, List.length_map _ _⟩, ⟨?_, List.length_map _ _⟩⟩
  · simp [get_user_profile, hsP, hEnvP, hErrP]
  · simp [get_repository, hsR, hEnvR, hErrR]

/-- Witness for C10: empty errors lists alongside present data payloads
still produce Normalized Errors, not successes. -/
theorem graphql_errors_precedence_witness :
    get_user_profile (fun e : Unit => Json.null)
        ⟨200, some ⟨some ⟨()⟩, some [], none⟩⟩ =
      Except.error (AppError.GitHubError
        { documentation_url := none, errors := some []
          message := "Failed to fetch user profile" })
    ∧ get_repository (fun e : Unit => Json.null)
        ⟨200, some ⟨some ⟨some ()⟩, some [], none⟩⟩ =
      Except.error (AppError.GitHubError
        { documentation_url := none, errors := some []
          message := "Failed to fetch user profile" }) := by
  have h := @graphql_errors_precedence Unit Unit Unit (fun _ => Json.null)
    ⟨200, some ⟨some ⟨()⟩, some [], none⟩⟩ ⟨200, some ⟨some ⟨some ()⟩, some [], none⟩⟩
    ⟨some ⟨()⟩, some [], none⟩ ⟨some ⟨some ()⟩, some [], none⟩ [] []
    rfl rfl rfl rfl rfl rfl
  exact ⟨h.1.1, h.2.1⟩

/-- C9: the stored-configuration lookup maps a row-not-found storage result
to a not-found failure, any other storage failure to a generic storage
failure, a row whose document fails to deserialize to a parse failure, and
a successfully deserialized row to the configuration as success. -/
theorem get_project_config_handler_contract {Config : Type}
    (from_value : Json → Except String Config)
    (raw : Json) (cfg : Config) (m em : String) :
    (get_project_config.handler (Except.error Sqlx.Error.RowNotFound) from_value =
        Except.error ⟨AppError.NotFound⟩)
    ∧ (get_project_config.handler (Except.error (Sqlx.Error.Other m)) from_value =
        Except.error ⟨AppError.SqlxError (Sqlx.Error.Other m)⟩)
    ∧ (from_value raw = Except.error em →
        get_project_config.handler (Except.ok raw) from_value =
          Except.error ⟨AppError.SerdeJsonError em⟩)
    ∧ (from_value raw = Except.ok cfg →
        get_project_config.handler (Except.ok raw) from_value = Except.ok cfg) := by
  refine ⟨rfl, rfl, fun h => ?_, fun h => ?_⟩ <;>
    simp [get_project_config.handler, h]

/-- Witness for C9 at concrete storage outcomes. -/
theorem get_project_config_handler_contract_witness :
    get_project_config.handler (Except.error Sqlx.Error.RowNotFound)
        (fun _ => Except.ok (0 : Nat)) = Except.error ⟨AppError.NotFound⟩
    ∧ get_project_config.handler (Except.ok Json.null)
        (fun _ => Except.ok (0 : Nat)) = Except.ok 0 := by
  have h := @get_project_config_handler_contract Nat
    (fun _ => Except.ok 0) Json.null 0 "connection reset" "missing field"
  exact ⟨h.1, h.2.2.2 rfl⟩

/-- C5 (amended): Transport Client construction never returns an error to
the caller: for every credential whose authorization header value encodes
validly it succeeds, and for every credential that cannot be encoded it
panics instead of returning an error. -/
theorem github_client_new_never_errors (token : String) :
    (isValidHeaderValue (authHeaderStr token) = true →
      GitHubClient.new token =
        RunResult.ret (Except.ok ⟨authHeaderStr token, "mosaic"⟩))
    ∧ (isValidHeaderValue (authHeaderStr token) = false →
      GitHubClient.new token =
        RunResult.panicked "called `Result::unwrap()` on an `Err` value")
    ∧ (∀ e : AppError, GitHubClient.new token ≠ RunResult.ret (Except.error e)) := by
  refine ⟨fun h => by simp [GitHubClient.new, h], fun h => by simp [GitHubClient.new, h],
    fun e => ?_⟩
  unfold GitHubClient.new
  split <;> simp

/-- Witness for C5 (amended): a plain token constructs successfully, and a
token with a newline does not produce a returned error. -/
theorem github_client_new_never_errors_witness :
    GitHubClient.new "s3cr3t" = RunResult.ret (Except.ok ⟨"token s3cr3t", "mosaic"⟩)
    ∧ GitHubClient.new "bad\ntoken" ≠ RunResult.ret (Except.error AppError.NotFound) :=
  ⟨by
      have h := (github_client_new_never_errors "s3cr3t").1 (by decide)
      simpa [authHeaderStr] using h,
    (github_client_new_never_errors "bad\ntoken").2.2 AppError.NotFound⟩

/-- C5 counterexample: the token with an embedded newline cannot be encoded
into a valid authorization header value, yet construction does not return
an error to the caller as the claim states: it panics. -/
theorem github_client_new_claim_counterexample :
    isValidHeaderValue (authHeaderStr "bad\ntoken") = false
    ∧ GitHubClient.new "bad\ntoken" =
        RunResult.panicked "called `Result::unwrap()` on an `Err` value" := by
  have h : isValidHeaderValue (authHeaderStr "bad\ntoken") = false := by decide
  exact ⟨h, by simp [GitHubClient.new, h]⟩

/-- Every sextet encodes to a byte the alphabet decoder inverts. -/
theorem b64DecChar_b64EncChar {n : Nat} (h : n < 64) :
    b64DecChar (b64EncChar n) = some n := by
  have hfin : ∀ m : Fin 64, b64DecChar (b64EncChar m.val) = some m.val := by decide
  exact hfin ⟨n, h⟩

/-- Alphabet bytes are never the padding byte. -/
theorem b64EncChar_ne_61 {n : Nat} (h : n < 64) : b64EncChar n ≠ 61 := by
  have hfin : ∀ m : Fin 64, b64EncChar m.val ≠ 61 := by decide
  exact hfin ⟨n, h⟩

/-- Alphabet bytes are never whitespace bytes. -/
theorem b64EncChar_not_ws {n : Nat} (h : n < 64) :
    wsBytes.contains (b64EncChar n) = false := by
  have hfin : ∀ m : Fin 64, wsBytes.contains (b64EncChar m.val) = false := by decide
  exact hfin ⟨n, h⟩

/-- Decoding inverts encoding on byte sequences. -/
theorem base64Decode_base64Encode : ∀ bs : List Nat, (∀ b ∈ bs, b < 256) →
    base64Decode (base64Encode bs) = some bs := by
  intro bs
  induction bs using base64Encode.induct with
  | case1 => intro h; rfl
  | case2 a =>
    intro h
    have ha : a < 256 := h a (by simp)
    have d1 := b64DecChar_b64EncChar (n := a / 4) (by omega)
    have d2 := b64DecChar_b64EncChar (n := a % 4 * 16) (by omega)
    have hmod : a % 4 * 16 % 16 = 0 := by omega
    simp only [base64Encode, base64Decode, d1, d2]
    simp [hmod]
    omega
  | case3 a b =>
    intro h
    have ha : a < 256 := h a (by simp)
    have hb : b < 256 := h b (by simp)
    have d1 := b64DecChar_b64EncChar (n := a / 4) (by omega)
    have d2 := b64DecChar_b64EncChar (n := a % 4 * 16 + b / 16) (by omega)
    have d3 := b64DecChar_b64EncChar (n := b % 16 * 4) (by omega)
    have hne : b64EncChar (b % 16 * 4) ≠ 61 := b64EncChar_ne_61 (by omega)
    have hmod : b % 16 * 4 % 4 = 0 := by omega
    simp only [base64Encode, base64Decode, d1, d2, d3]
    simp [hne, hmod]
    omega
  | case4 a b c rest ih =>
    intro h
    have ha : a < 256 := h a (by simp)
    have hb : b < 256 := h b (by simp)
    have hc : c < 256 := h c (by simp)
    have hrest : ∀ x ∈ rest, x < 256 := fun x hx => h x (by simp [hx])
    have d1 := b64DecChar_b64EncChar (n := a / 4) (by omega)
    have d2 := b64DecChar_b64EncChar (n := a % 4 * 16 + b / 16) (by omega)
    have d3 := b64DecChar_b64EncChar (n := b % 16 * 4 + c / 64) (by omega)
    have d4 := b64DecChar_b64EncChar (n := c % 64) (by omega)
    have hne3 : b64EncChar (b % 16 * 4 + c / 64) ≠ 61 := b64EncChar_ne_61 (by omega)
    have hne4 : b64EncChar (c % 64) ≠ 61 := b64EncChar_ne_61 (by omega)
    simp only [base64Encode, base64Decode, d1, d2, d3, d4, ih hrest]
    simp [hne3, hne4]
    refine ⟨by omega, by omega, by omega⟩

/-- Encoded output never contains whitespace bytes. -/
theorem base64Encode_not_ws : ∀ bs : List Nat, (∀ b ∈ bs, b < 256) →
    ∀ b ∈ base64Encode bs, wsBytes.contains b = false := by
  intro bs
  induction bs using base64Encode.induct with
  | case1 => intro _ b hb; simp [base64Encode] at hb
  | case2 a =>
    intro h b hb
    have ha : a < 256 := h a (by simp)
    simp only [base64Encode, List.mem_cons, List.not_mem_nil, or_false] at hb
    rcases hb with rfl | rfl | rfl | rfl
    · exact b64EncChar_not_ws (by omega)
    · exact b64EncChar_not_ws (by omega)
    · decide
    · decide
  | case3 a b' =>
    intro h b hb
    have ha : a < 256 := h a (by simp)
    have hb' : b' < 256 := h b' (by simp)
    simp only [base64Encode, List.mem_cons, List.not_mem_nil, or_false] at hb
    rcases hb with rfl | rfl | rfl | rfl
    · exact b64EncChar_not_ws (by omega)
    · exact b64EncChar_not_ws (by omega)
    · exact b64EncChar_not_ws (by omega)
    · decide
  | case4 a b' c rest ih =>
    intro h b hb
    have ha : a < 256 := h a (by simp)
    have hb' : b' < 256 := h b' (by simp)
    have hc : c < 256 := h c (by simp)
    have hrest : ∀ x ∈ rest, x < 256 := fun x hx => h x (by simp [hx])
    simp only [base64Encode, List.mem_cons] at hb
    rcases hb with rfl | rfl | rfl | rfl | hmem
    · exact b64EncChar_not_ws (by omega)
    · exact b64EncChar_not_ws (by omega)
    · exact b64EncChar_not_ws (by omega)
    · exact b64EncChar_not_ws (by omega)
    · exact ih hrest b hmem

/-- Filtering the whitespace bytes back out of an interleaving recovers the
original sequence, provided that sequence itself holds no whitespace. -/
theorem Interleaved.filter_eq {l r : List Nat} (h : Interleaved l r)
    (hl : ∀ b ∈ l, wsBytes.contains b = false) :
    r.filter (fun b => !wsBytes.contains b) = l := by
  induction h with
  | nil => rfl
  | keep b hlr ih =>
    have hb : wsBytes.contains b = false := hl b (by simp)
    simp only [List.filter_cons, hb, Bool.not_false, if_pos]
    rw [ih (fun x hx => hl x (by simp [hx]))]
  | ws b hb hlr ih =>
    have hbc : wsBytes.contains b = true := by
      fin_cases hb <;> rfl
    simp only [List.filter_cons, hbc, Bool.not_true]
    simpa using ih hl

/-- The scalar value of a Char is a valid codepoint: below the surrogate
range or above it and below 0x110000. -/
theorem char_toNat_valid (c : Char) :
    c.toNat < 0xD800 ∨ (0xDFFF < c.toNat ∧ c.toNat < 0x110000) := c.valid

/-- UTF-8 encoding produces bytes. -/
theorem utf8EncodeChar_lt_256 (c : Char) : ∀ b ∈ utf8EncodeChar c, b < 256 := by
  have hv := char_toNat_valid c
  intro b hb
  unfold utf8EncodeChar at hb
  split_ifs at hb <;> simp only [List.mem_cons, List.not_mem_nil, or_false] at hb <;>
    rcases hb with rfl | rfl | rfl | rfl <;> omega

/-- UTF-8 encoding of a character list produces bytes. -/
theorem utf8Encode_lt_256 (cs : List Char) : ∀ b ∈ utf8Encode cs, b < 256 := by
  induction cs with
  | nil => intro b hb; simp [utf8Encode] at hb
  | cons c cs ih =>
    intro b hb
    rw [utf8Encode] at hb
    rcases List.mem_append.mp hb with h | h
    · exact utf8EncodeChar_lt_256 c b h
    · exact ih b h

/-- Decoder step for a one-byte sequence. -/
theorem utf8LossyDecode_one (b1 : Nat) (bs : List Nat) (h : b1 < 0x80) :
    utf8LossyDecode (b1 :: bs) = Char.ofNat b1 :: utf8LossyDecode bs := by
  rw [utf8LossyDecode.eq_def]
  simp only [if_pos h]

/-- Decoder step for a two-byte sequence. -/
theorem utf8LossyDecode_two (b1 b2 : Nat) (bs : List Nat)
    (h1 : 0xC2 ≤ b1) (h2 : b1 < 0xE0) (h3 : 0x80 ≤ b2) (h4 : b2 < 0xC0) :
    utf8LossyDecode (b1 :: b2 :: bs) =
      Char.ofNat ((b1 - 0xC0) * 64 + (b2 - 0x80)) :: utf8LossyDecode bs := by
  rw [utf8LossyDecode.eq_def]
  simp only [if_neg (show ¬ b1 < 0x80 by omega), if_neg (show ¬ b1 < 0xC2 by omega),
    if_pos h2, if_pos (show 0x80 ≤ b2 ∧ b2 < 0xC0 from ⟨h3, h4⟩)]

/-- Decoder step for a three-byte sequence. -/
theorem utf8LossyDecode_three (b1 b2 b3 : Nat) (bs : List Nat)
    (hb1l : 0xE0 ≤ b1) (hb1u : b1 < 0xF0) (hc : utf8Cont3 b1 b2 = true)
    (h3 : 0x80 ≤ b3) (h4 : b3 < 0xC0) :
    utf8LossyDecode (b1 :: b2 :: b3 :: bs) =
      Char.ofNat ((b1 - 0xE0) * 4096 + (b2 - 0x80) * 64 + (b3 - 0x80))
        :: utf8LossyDecode bs := by
  rw [utf8LossyDecode.eq_def]
  simp only [if_neg (show ¬ b1 < 0x80 by omega), if_neg (show ¬ b1 < 0xC2 by omega),
    if_neg (show ¬ b1 < 0xE0 by omega), if_pos hb1u, hc, if_true,
    if_pos (show 0x80 ≤ b3 ∧ b3 < 0xC0 from ⟨h3, h4⟩)]

/-- Decoder step for a four-byte sequence. -/
theorem utf8LossyDecode_four (b1 b2 b3 b4 : Nat) (bs : List Nat)
    (hb1l : 0xF0 ≤ b1) (hb1u : b1 < 0xF5) (hc : utf8Cont4 b1 b2 = true)
    (h3 : 0x80 ≤ b3) (h4 : b3 < 0xC0) (h5 : 0x80 ≤ b4) (h6 : b4 < 0xC0) :
    utf8LossyDecode (b1 :: b2 :: b3 :: b4 :: bs) =
      Char.ofNat ((b1 - 0xF0) * 262144 + (b2 - 0x80) * 4096 + (b3 - 0x80) * 64
          + (b4 - 0x80))
        :: utf8LossyDecode bs := by
  rw [utf8LossyDecode.eq_def]
  simp only [if_neg (show ¬ b1 < 0x80 by omega), if_neg (show ¬ b1 < 0xC2 by omega),
    if_neg (show ¬ b1 < 0xE0 by omega), if_neg (show ¬ b1 < 0xF0 by omega),
    if_pos hb1u, hc, if_true,
    if_pos (show 0x80 ≤ b3 ∧ b3 < 0xC0 from ⟨h3, h4⟩),
    if_pos (show 0x80 ≤ b4 ∧ b4 < 0xC0 from ⟨h5, h6⟩)]

/-- Lossy decoding consumes the UTF-8 encoding of one character exactly. -/
theorem utf8LossyDecode_encodeChar (c : Char) (bs : List Nat) :
    utf8LossyDecode (utf8EncodeChar c ++ bs) = c :: utf8LossyDecode bs := by
  have hv := char_toNat_valid c
  have hofnat : Char.ofNat c.toNat = c := Char.ofNat_toNat c
  by_cases h1 : c.toNat < 0x80
  · have henc : utf8EncodeChar c = [c.toNat] := by simp [utf8EncodeChar, h1]
    rw [henc, List.cons_append, List.nil_append,
      utf8LossyDecode_one _ _ h1, hofnat]
  · by_cases h2 : c.toNat < 0x800
    · have henc : utf8EncodeChar c = [0xC0 + c.toNat / 64, 0x80 + c.toNat % 64] := by
        simp [utf8EncodeChar, h1, h2]
      rw [henc, List.cons_append, List.cons_append, List.nil_append,
        utf8LossyDecode_two _ _ _ (by omega) (by omega) (by omega) (by omega)]
      have harith : (0xC0 + c.toNat / 64 - 0xC0) * 64 + (0x80 + c.toNat % 64 - 0x80)
          = c.toNat := by omega
      rw [harith, hofnat]
    · by_cases h3 : c.toNat < 0x10000
      · have henc : utf8EncodeChar c =
            [0xE0 + c.toNat / 4096, 0x80 + c.toNat / 64 % 64, 0x80 + c.toNat % 64] := by
          simp [utf8EncodeChar, h1, h2, h3]
        have hc : utf8Cont3 (0xE0 + c.toNat / 4096) (0x80 + c.toNat / 64 % 64) = true := by
          unfold utf8Cont3
          split_ifs with he hd
          · simp only [decide_eq_true_eq]; omega
          · simp only [decide_eq_true_eq]; omega
          · simp only [decide_eq_true_eq]; omega
        rw [henc, List.cons_append, List.cons_append, List.cons_append, List.nil_append,
          utf8LossyDecode_three _ _ _ _ (by omega) (by omega) hc (by omega) (by omega)]
        have harith : (0xE0 + c.toNat / 4096 - 0xE0) * 4096
            + (0x80 + c.toNat / 64 % 64 - 0x80) * 64 + (0x80 + c.toNat % 64 - 0x80)
            = c.toNat := by omega
        rw [harith, hofnat]
      · have henc : utf8EncodeChar c =
            [0xF0 + c.toNat / 262144, 0x80 + c.toNat / 4096 % 64,
              0x80 + c.toNat / 64 % 64, 0x80 + c.toNat % 64] := by
          simp [utf8EncodeChar, h1, h2, h3]
        have hc : utf8Cont4 (0xF0 + c.toNat / 262144) (0x80 + c.toNat / 4096 % 64)
            = true := by
          unfold utf8Cont4
          split_ifs with he hd
          · simp only [decide_eq_true_eq]; omega
          · simp only [decide_eq_true_eq]; omega
          · simp only [decide_eq_true_eq]; omega
        rw [henc, List.cons_append, List.cons_append, List.cons_append, List.cons_append,
          List.nil_append,
          utf8LossyDecode_four _ _ _ _ _ (by omega) (by omega) hc
            (by omega) (by omega) (by omega) (by omega)]
        have harith : (0xF0 + c.toNat / 262144 - 0xF0) * 262144
            + (0x80 + c.toNat / 4096 % 64 - 0x80) * 4096
            + (0x80 + c.toNat / 64 % 64 - 0x80) * 64 + (0x80 + c.toNat % 64 - 0x80)
            = c.toNat := by omega
        rw [harith, hofnat]

/-- Lossy decoding inverts UTF-8 encoding on character lists. -/
theorem utf8LossyDecode_utf8Encode (cs : List Char) :
    utf8LossyDecode (utf8Encode cs) = cs := by
  induction cs with
  | nil => rw [utf8Encode, utf8LossyDecode]
  | cons c cs ih => rw [utf8Encode, utf8LossyDecode_encodeChar, ih]

/-- C1: for every UTF-8 text, base64-encoding it and interleaving arbitrary
whitespace bytes (space, newline, tab, carriage return, vertical tab, form
feed) at arbitrary positions, then passing the result as the raw content
field through decoded_content, yields the original text. -/
theorem decoded_content_roundtrip (s raw : String) (o : GitHubContentObject)
    (hcontent : o.content = some raw)
    (hinter : Interleaved (base64Encode (utf8Encode s.data)) (utf8Encode raw.data)) :
    o.decoded_content = RunResult.ret (some s) := by
  have h256 : ∀ b ∈ utf8Encode s.data, b < 256 := utf8Encode_lt_256 _
  have hnws : ∀ b ∈ base64Encode (utf8Encode s.data), wsBytes.contains b = false :=
    base64Encode_not_ws _ h256
  have hfilter := Interleaved.filter_eq hinter hnws
  simp only [GitHubContentObject.decoded_content, hcontent]
  rw [hfilter, base64Decode_base64Encode _ h256]
  simp only [utf8LossyDecode_utf8Encode]

/-- Witness for C1: the text "Hi!" encodes to "SGkh"; with a space and a
newline interleaved the content "SG kh\n" decodes back to "Hi!". -/
theorem decoded_content_roundtrip_witness :
    GitHubContentObject.decoded_content
        ⟨"f", "p", "sha", 3, "u", "h", "g", "d", "file", some "SG kh\n", "base64", []⟩ =
      RunResult.ret (some "Hi!") := by
  refine decoded_content_roundtrip "Hi!" "SG kh\n" _ rfl ?_
  show Interleaved [83, 71, 107, 104] [83, 71, 32, 107, 104, 10]
  exact Interleaved.keep 83 (Interleaved.keep 71 (Interleaved.ws 32 (by decide)
    (Interleaved.keep 107 (Interleaved.keep 104 (Interleaved.ws 10 (by decide)
      Interleaved.nil)))))

/-- C6: for every Content object whose raw content is present but whose
whitespace-stripped byte sequence is not valid base64, decoded_content
never produces truncated or partial output: the decode-failure branch
panics rather than returning a value. -/
theorem decoded_content_fails_loudly (o : GitHubContentObject) (raw : String)
    (hcontent : o.content = some raw)
    (hbad : base64Decode
      ((utf8Encode raw.data).filter (fun b => !wsBytes.contains b)) = none) :
    o.decoded_content = RunResult.panicked "could not decode github content" := by
  simp only [GitHubContentObject.decoded_content, hcontent, hbad]

/-- Witness for C6: the content "!" strips to a single byte outside the
base64 alphabet, so decoding panics. -/
theorem decoded_content_fails_loudly_witness :
    GitHubContentObject.decoded_content
        ⟨"f", "p", "sha", 1, "u", "h", "g", "d", "file", some "!", "base64", []⟩ =
      RunResult.panicked "could not decode github content" :=
  decoded_content_fails_loudly _ "!" rfl (by decide)
